import Mathlib

/-!
# Gatekeeper credential-lifecycle core: shallow embedding

A shallow embedding of the Gatekeeper agent orchestrator
(`packages/agent/src/core/agent.ts`), the PostgreSQL provider
(`postgres-provider.ts`), the bootstrap SQL helper routines
(`init-scripts` bootstrap file) and the shared job contract
(`packages/shared/src/jobs.ts`, `types.ts`, `errors.ts`,
`validation.ts`), together with theorems settling claims C1–C10 about
this code.

Conventions:
* timestamps are integers in milliseconds (the TypeScript code uses
  `Date.now()` milliseconds; SQL interval comparisons are translated to
  the same unit);
* random bytes (`crypto.randomBytes`) are passed in as explicit
  byte-list inputs;
* the SHA-256 content hash and `encodeURIComponent` are external
  library primitives; they are carried as opaque function parameters
  (`h`, `enc`) that every theorem quantifies over;
* logging is pure: `logger.*` calls either disappear or, for audit
  lines, are collected in an explicit output list.
-/

namespace Gatekeeper

/-! ## Character classes and name patterns (from `validation.ts` and the
bootstrap SQL regexes) -/

/-- `[a-zA-Z0-9]` character test. -/
def charIsAlphanum (c : Char) : Bool :=
  (('a' ≤ c && c ≤ 'z') || ('A' ≤ c && c ≤ 'Z') || ('0' ≤ c && c ≤ '9'))

/-- Regex `^gk_[a-zA-Z0-9]+$` when `allowUnderscore = false` (the TS
`validateEphemeralUsername` core and the SQL list/cleanup filter), and
`^gk_[a-zA-Z0-9_]+$` when `allowUnderscore = true` (the SQL
`gk_create_ephemeral_user` / `gk_drop_user` safety checks). -/
def matchesGkPattern (allowUnderscore : Bool) (s : String) : Bool :=
  match s.data with
  | 'g' :: 'k' :: '_' :: rest =>
      !rest.isEmpty && rest.all (fun c => charIsAlphanum c || (allowUnderscore && c == '_'))
  | _ => false

/-- Substring containment on character lists: `pat` is a prefix of `l`. -/
def listPrefixOf : List Char → List Char → Bool
  | [], _ => true
  | _ :: _, [] => false
  | a :: as, b :: bs => a == b && listPrefixOf as bs

/-- Substring containment on character lists: `pat` occurs inside `l`. -/
def listInfixOf (pat : List Char) : List Char → Bool
  | [] => listPrefixOf pat []
  | c :: rest => listPrefixOf pat (c :: rest) || listInfixOf pat rest

/-- JavaScript `hay.includes(pat)`. -/
def containsSubstr (hay pat : String) : Bool :=
  listInfixOf pat.data hay.data

/-! ## Hex and base64 encodings (Node `Buffer.toString('hex' | 'base64')`),
used by `GatekeeperAgent.generateId` / `generatePassword`. -/

/-- Lowercase hex digit table. -/
def hexDigits : List Char :=
  "0123456789abcdef".data

/-- One byte as two lowercase hex characters. -/
def hexByte (b : Nat) : List Char :=
  [hexDigits.getD (b / 16 % 16) '0', hexDigits.getD (b % 16) '0']

/-- `Buffer.from(bytes).toString('hex')`. -/
def hexEncode (bytes : List Nat) : String :=
  ⟨(bytes.map hexByte).flatten⟩

/-- Standard base64 alphabet. -/
def base64Chars : List Char :=
  "ABCDEFGHIJKLMNOPQRSTUVWXYZabcdefghijklmnopqrstuvwxyz0123456789+/".data

/-- Index into the base64 alphabet. -/
def b64At (n : Nat) : Char :=
  base64Chars.getD n 'A'

/-- `Buffer.from(bytes).toString('base64')` (RFC 4648 with padding). -/
def base64Encode : List Nat → List Char
  | [] => []
  | [a] =>
      [b64At (a / 4 % 64), b64At (a % 4 * 16), '=', '=']
  | [a, b] =>
      [b64At (a / 4 % 64), b64At (a % 4 * 16 + b / 16 % 16), b64At (b % 16 * 4), '=']
  | a :: b :: c :: rest =>
      b64At (a / 4 % 64) :: b64At (a % 4 * 16 + b / 16 % 16) ::
        b64At (b % 16 * 4 + c / 64 % 4) :: b64At (c % 64) :: base64Encode rest

/-- `GatekeeperAgent.generateId`: `crypto.randomBytes(6).toString('hex')`;
the six random bytes are the explicit input. -/
def generateId (bytes : List Nat) : String :=
  hexEncode bytes

/-- `GatekeeperAgent.generatePassword`:
`crypto.randomBytes(16).toString('base64') + crypto.randomBytes(4).toString('hex')`;
the random bytes are the explicit inputs. -/
def generatePassword (b16 b4 : List Nat) : String :=
  ⟨base64Encode b16⟩ ++ hexEncode b4

/-! ## Target-database model and the bootstrap SECURITY DEFINER routines
(bootstrap SQL file, functions `gk_create_ephemeral_user`, `gk_drop_user`,
`gk_cleanup_expired_users`, and the `gatekeeper_audit` table). -/

/-- A row of `pg_roles` as far as the helper routines read it. -/
structure PgRole where
  rolname : String
  rolvaliduntil : Option Int
  rolconnlimit : Int
deriving Repr, DecidableEq

/-- A row of `pg_stat_activity` as far as `gk_drop_user` reads it:
the connection owner, its backend pid, and whether `state = 'active'`. -/
structure PgConn where
  usename : String
  pid : Nat
  active : Bool
deriving Repr, DecidableEq

/-- A persisted `gatekeeper_audit` row (bootstrap SQL table definition). -/
structure AuditRow where
  eventType : String
  sessionId : Option String
  username : Option String
  correlationId : Option String
  eventData : String
  prevHash : Option String
  eventHash : String
deriving Repr, DecidableEq

/-- The target database state the helper routines touch: the role
catalog, the activity view, the caller's backend pid, the database
clock (`now()`, in milliseconds), and the `gatekeeper_audit` table. -/
structure PgState where
  roles : List PgRole
  activity : List PgConn
  ownPid : Nat
  now : Int
  auditTable : List AuditRow
deriving Repr, DecidableEq

/-- Bootstrap SQL `gk_create_ephemeral_user(username, password,
valid_until, role_name, connection_limit)`.  Validates the inputs,
checks the role pack exists, then issues `CREATE ROLE ... VALID UNTIL
... CONNECTION LIMIT ...` and `GRANT role TO user`.  A duplicate name
makes `CREATE ROLE` raise the native uniqueness error
`role "<name>" already exists`.  Errors carry the raised message. -/
def gkCreateEphemeralUser (st : PgState) (username password : String)
    (validUntil : Int) (roleName : String) (connectionLimit : Int) :
    Except String PgState :=
  if username == "" then
    .error "Username cannot be empty"
  else if password == "" then
    .error "Password cannot be empty"
  else if !matchesGkPattern true username then
    .error "Username must follow pattern: gk_[alphanumeric_underscore]"
  else if validUntil ≤ st.now then
    .error "Valid until timestamp must be in the future"
  else if !(st.roles.any (fun r => r.rolname == roleName)) then
    .error ("Role " ++ roleName ++ " does not exist")
  else if st.roles.any (fun r => r.rolname == username) then
    .error ("role \x22" ++ username ++ "\x22 already exists")
  else
    .ok { st with
          roles := st.roles ++ [⟨username, some validUntil, connectionLimit⟩] }

/-- Bootstrap SQL `gk_drop_user(username)`.  Refuses names outside the
`gk_` pattern; returns `false` silently when no such role exists;
otherwise terminates the login's connections other than the caller's
backend (only when it currently has active ones, as in the source),
revokes residual privileges (not observable in this model) and drops
the role, returning `true`. -/
def gkDropUser (st : PgState) (username : String) :
    Except String (Bool × PgState) :=
  if username == "" then
    .error "Username cannot be empty"
  else if !matchesGkPattern true username then
    .error "Can only drop gatekeeper users (must start with gk_)"
  else if !(st.roles.any (fun r => r.rolname == username)) then
    .ok (false, st)
  else
    let activeConnections :=
      (st.activity.filter
        (fun c => c.usename == username && c.active && c.pid != st.ownPid)).length
    let activity1 :=
      if activeConnections > 0 then
        st.activity.filter (fun c => !(c.usename == username && c.pid != st.ownPid))
      else
        st.activity
    .ok (true,
      { st with
        roles := st.roles.filter (fun r => r.rolname != username)
        activity := activity1 })

/-- One result row of `gk_cleanup_expired_users` (and of the provider's
`UserCleanupResult` projection: `username`, `was_expired`, `dropped`,
`error_message`). -/
structure CleanupRow where
  username : String
  wasExpired : Bool
  dropped : Bool
  errorMessage : Option String
deriving Repr, DecidableEq

/-- The loop body of `gk_cleanup_expired_users`: drop each candidate in
turn inside a `BEGIN ... EXCEPTION` block, recording the outcome row. -/
def gkCleanupLoop (st : PgState) : List String → List CleanupRow × PgState
  | [] => ([], st)
  | name :: rest =>
      let step : CleanupRow × PgState :=
        match gkDropUser st name with
        | .ok (dropSuccess, st1) => (⟨name, true, dropSuccess, none⟩, st1)
        | .error msg => (⟨name, true, false, some msg⟩, st)
      let next := gkCleanupLoop step.2 rest
      (step.1 :: next.1, next.2)

/-- Bootstrap SQL `gk_cleanup_expired_users(older_than_minutes)`:
iterates the roles matching `^gk_[a-zA-Z0-9]+$` whose `rolvaliduntil`
is at most `now() - older_than_minutes` (translated to milliseconds)
or is NULL, dropping each and returning one row per candidate. -/
def gkCleanupExpiredUsers (st : PgState) (olderThanMinutes : Int) :
    List CleanupRow × PgState :=
  let cutoff := st.now - olderThanMinutes * 60000
  let candidates :=
    (st.roles.filter
      (fun r =>
        matchesGkPattern false r.rolname &&
          (match r.rolvaliduntil with
           | some t => t ≤ cutoff
           | none => true))).map (fun r => r.rolname)
  gkCleanupLoop st candidates

/-! ## PostgreSQL provider (`postgres-provider.ts`) -/

/-- `DatabaseProviderError` as observed through the job pipeline:
machine code, message, retryability (engine tag is constant
`'postgres'` and omitted). -/
structure ProviderError where
  code : String
  message : String
  retryable : Bool
deriving Repr, DecidableEq

/-- Connection configuration fields used by `generateDsn`. -/
structure ConnCfg where
  host : String
  port : Int
  database : String
  sslMode : String
deriving Repr, DecidableEq

/-- `PostgresProvider.generateDsn`; `enc` stands for the JavaScript
`encodeURIComponent` primitive. -/
def generateDsn (enc : String → String) (cfg : ConnCfg)
    (username password : String) : String :=
  "postgresql://" ++ enc username ++ ":" ++ enc password ++ "@" ++
    cfg.host ++ ":" ++ toString cfg.port ++ "/" ++ cfg.database ++
    "?sslmode=" ++ cfg.sslMode

/-- The request record passed to `createEphemeralUser` by the agent. -/
structure PgCreateReq where
  username : String
  password : String
  role : String
  ttlMinutes : Int
  connectionLimit : Int
deriving Repr, DecidableEq

/-- The success payload of `createEphemeralUser` (provider metadata
carries only constants and is omitted). -/
structure PvCreateOk where
  username : String
  dsn : String
  expiresAt : Int
  connectionLimit : Int
deriving Repr, DecidableEq

/-- The error-substring mapping in `createEphemeralUser`'s catch block:
`"already exists"` → `USER_EXISTS` (not retryable), then the
role-not-found pattern → `ROLE_NOT_FOUND` (not retryable), anything
else → `USER_CREATION_FAILED` (retryable). -/
def mapCreateError (username role msg : String) : ProviderError :=
  if containsSubstr msg "already exists" then
    ⟨"USER_EXISTS", "User " ++ username ++ " already exists", false⟩
  else if containsSubstr msg "Role" && containsSubstr msg "does not exist" then
    ⟨"ROLE_NOT_FOUND", "Role " ++ role ++ " does not exist", false⟩
  else
    ⟨"USER_CREATION_FAILED", "Failed to create ephemeral user", true⟩

/-- `PostgresProvider.createEphemeralUser`: guard on initialization,
compute `expiresAt = Date.now() + ttlMinutes*60*1000`, run the helper
inside `BEGIN`/`COMMIT`, and on a database error `ROLLBACK` (state
unchanged) and map the message through `mapCreateError`.  The returned
state is the database state after the call. -/
def pvCreateEphemeralUser (initialized : Bool) (enc : String → String)
    (cfg : ConnCfg) (st : PgState) (req : PgCreateReq) :
    Except ProviderError PvCreateOk × PgState :=
  if !initialized then
    (.error ⟨"NOT_INITIALIZED", "Provider not initialized", false⟩, st)
  else
    let expiresAt := st.now + req.ttlMinutes * 60 * 1000
    match gkCreateEphemeralUser st req.username req.password expiresAt
        req.role req.connectionLimit with
    | .error msg =>
        (.error (mapCreateError req.username req.role msg), st)
    | .ok st1 =>
        (.ok ⟨req.username, generateDsn enc cfg req.username req.password,
              expiresAt, req.connectionLimit⟩, st1)

/-- `PostgresProvider.dropUser`: guard on initialization, run
`SELECT gk_drop_user($1)` and report its boolean; any database error
becomes `USER_DROP_FAILED` (retryable). -/
def pvDropUser (initialized : Bool) (st : PgState) (username : String) :
    Except ProviderError Bool × PgState :=
  if !initialized then
    (.error ⟨"NOT_INITIALIZED", "Provider not initialized", false⟩, st)
  else
    match gkDropUser st username with
    | .ok (success, st1) => (.ok success, st1)
    | .error _ =>
        (.error ⟨"USER_DROP_FAILED", "Failed to drop user", true⟩, st)

/-- `PostgresProvider.cleanupExpiredUsers`: guard on initialization, run
`SELECT * FROM gk_cleanup_expired_users($1)` and project the rows. -/
def pvCleanupExpiredUsers (initialized : Bool) (st : PgState)
    (olderThanMinutes : Int) :
    Except ProviderError (List CleanupRow) × PgState :=
  if !initialized then
    (.error ⟨"NOT_INITIALIZED", "Provider not initialized", false⟩, st)
  else
    let (rows, st1) := gkCleanupExpiredUsers st olderThanMinutes
    (.ok rows, st1)

/-! ## Connection-lifecycle traces of the provider operations

A second view of the same `postgres-provider.ts` functions capturing
only their pool usage: every operation runs
`const client = await this.pool.connect()` followed by a
`try ... finally { client.release() }`.  The oracle `q` decides whether
the i-th issued statement succeeds, so the trace functions enumerate
every execution path, error paths included. -/

/-- One pool/statement event. -/
inductive Ev
  | acquire
  | release
  | stmt (tag : String) (ok : Bool)
deriving Repr, DecidableEq

/-- Count of `release` events in a trace. -/
def releaseCount (t : List Ev) : Nat :=
  (t.filter (fun e => e == Ev.release)).length

/-- Count of `acquire` events in a trace. -/
def acquireCount (t : List Ev) : Nat :=
  (t.filter (fun e => e == Ev.acquire)).length

/-- `createEphemeralUser` pool trace: `BEGIN` (statement 0), the helper
call (1), `COMMIT` (2) and the version query (3, its errors are caught
inside `getPostgresVersion`); on an inner failure, `ROLLBACK` (4) and
rethrow; the `finally` releases the client on every path. -/
def pvCreateTrace (q : Nat → Bool) : List Ev :=
  Ev.acquire ::
    (if !q 0 then
      [Ev.stmt "BEGIN" false]
    else if !q 1 then
      [Ev.stmt "BEGIN" true, Ev.stmt "gk_create_ephemeral_user" false,
       Ev.stmt "ROLLBACK" (q 4)]
    else if !q 2 then
      [Ev.stmt "BEGIN" true, Ev.stmt "gk_create_ephemeral_user" true,
       Ev.stmt "COMMIT" false, Ev.stmt "ROLLBACK" (q 4)]
    else
      [Ev.stmt "BEGIN" true, Ev.stmt "gk_create_ephemeral_user" true,
       Ev.stmt "COMMIT" true, Ev.stmt "version" (q 3)]) ++
    [Ev.release]

/-- `dropUser` pool trace: the single `gk_drop_user` statement inside
`try ... finally { release }`. -/
def pvDropTrace (q : Nat → Bool) : List Ev :=
  [Ev.acquire, Ev.stmt "gk_drop_user" (q 0), Ev.release]

/-- `listEphemeralUsers` pool trace. -/
def pvListTrace (q : Nat → Bool) : List Ev :=
  [Ev.acquire, Ev.stmt "gk_list_ephemeral_users" (q 0), Ev.release]

/-- `cleanupExpiredUsers` pool trace. -/
def pvCleanupTrace (q : Nat → Bool) : List Ev :=
  [Ev.acquire, Ev.stmt "gk_cleanup_expired_users" (q 0), Ev.release]

/-- `healthCheck` pool trace: `SELECT 1` (0) then `gk_validate_setup()`
(1); a failure of either skips the rest but the inner `finally` still
releases before the outer catch builds the unhealthy result. -/
def pvHealthTrace (q : Nat → Bool) : List Ev :=
  Ev.acquire ::
    (if !q 0 then
      [Ev.stmt "SELECT 1" false]
    else
      [Ev.stmt "SELECT 1" true, Ev.stmt "gk_validate_setup" (q 1)]) ++
    [Ev.release]

/-! ## Shared job contract (`packages/shared/src/jobs.ts`, `types.ts`)
and its zod decoding (`validation.ts` `validateAgentJob`). -/

/-- `JobErrorSchema`: `{code, message, retryable}`. -/
structure JobError where
  code : String
  message : String
  retryable : Bool
deriving Repr, DecidableEq

/-- A raw (JSON-shaped, not yet validated) agent job.  Field types
mirror the JSON payload; zod's structural checks for wrong JSON types
are outside this model — every claim concerns field-value validation. -/
inductive RawJob
  | createJ (id correlationId : String) (host : String) (port : Int)
      (database : String) (sslMode : Option String) (role : String)
      (ttlMinutes : Int) (requesterUserId : String) (reason : Option String)
  | revokeJ (id correlationId sessionId : String)
  | cleanupJ (id correlationId : String) (olderThanMinutes : Option Int)
deriving Repr, DecidableEq

/-- Decoded `create_session` job (defaults applied). -/
structure CreateJobD where
  id : String
  correlationId : String
  host : String
  port : Int
  database : String
  sslMode : String
  role : String
  ttlMinutes : Int
  requesterUserId : String
  reason : Option String
deriving Repr, DecidableEq

/-- Decoded `revoke_session` job. -/
structure RevokeJobD where
  id : String
  correlationId : String
  sessionId : String
deriving Repr, DecidableEq

/-- Decoded `cleanup` job (default `olderThanMinutes = 5` applied). -/
structure CleanupJobD where
  id : String
  correlationId : String
  olderThanMinutes : Int
deriving Repr, DecidableEq

/-- `AgentJobSchema` output: the validated discriminated union. -/
inductive AgentJob
  | create (j : CreateJobD)
  | revoke (j : RevokeJobD)
  | cleanup (j : CleanupJobD)
deriving Repr, DecidableEq

/-- `[0-9a-fA-F]` test. -/
def charIsHex (c : Char) : Bool :=
  (('0' ≤ c && c ≤ '9') || ('a' ≤ c && c ≤ 'f') || ('A' ≤ c && c ≤ 'F'))

/-- Split a character list at `'-'` separators. -/
def splitDash : List Char → List (List Char)
  | [] => [[]]
  | c :: rest =>
      let r := splitDash rest
      if c == '-' then [] :: r
      else
        match r with
        | g :: gs => (c :: g) :: gs
        | [] => [[c]]

/-- Structural UUID check standing for zod `z.string().uuid()`:
five hyphen-separated hex groups of lengths 8-4-4-4-12. -/
def isUuid (s : String) : Bool :=
  match splitDash s.data with
  | [a, b, c, d, e] =>
      a.length == 8 && b.length == 4 && c.length == 4 && d.length == 4 &&
        e.length == 12 &&
        (a.all charIsHex && b.all charIsHex && c.all charIsHex &&
          d.all charIsHex && e.all charIsHex)
  | _ => false

/-- Base-schema checks shared by every variant (`BaseJobSchema`). -/
def decodeBase (id correlationId : String) : Except String Unit :=
  if id.length < 1 then .error "Job ID is required"
  else if !isUuid correlationId then .error "Correlation ID must be a valid UUID"
  else .ok ()

/-- `AgentJobSchema` decoding with the first failing check's message,
as surfaced by `validateAgentJob` (`validation.ts` `validate`). -/
def decodeAgentJob : RawJob → Except String AgentJob
  | .createJ id correlationId host port database sslMode role ttlMinutes
      requesterUserId reason =>
      match decodeBase id correlationId with
      | .error m => .error m
      | .ok _ =>
        if host.length < 1 then .error "Host is required"
        else if port < 1 || port > 65535 then
          .error "Port must be between 1 and 65535"
        else if database.length < 1 then .error "Database name is required"
        else if !(sslMode.getD "prefer" == "disable" ||
                  sslMode.getD "prefer" == "require" ||
                  sslMode.getD "prefer" == "prefer") then
          .error "Invalid enum value"
        else if !(role == "app_read" || role == "app_write" || role == "app_admin") then
          .error "Invalid enum value"
        else if ttlMinutes < 1 then .error "TTL must be at least 1 minute"
        else if ttlMinutes > 1440 then
          .error "TTL cannot exceed 24 hours (1440 minutes)"
        else if requesterUserId.length < 1 then .error "User ID is required"
        else if (reason.getD "").length > 256 then
          .error "Reason cannot exceed 256 characters"
        else
          .ok (.create ⟨id, correlationId, host, port, database,
            sslMode.getD "prefer", role, ttlMinutes, requesterUserId, reason⟩)
  | .revokeJ id correlationId sessionId =>
      match decodeBase id correlationId with
      | .error m => .error m
      | .ok _ =>
        if sessionId.length < 1 then .error "Session ID is required"
        else .ok (.revoke ⟨id, correlationId, sessionId⟩)
  | .cleanupJ id correlationId olderThanMinutes =>
      match decodeBase id correlationId with
      | .error m => .error m
      | .ok _ =>
        if olderThanMinutes.getD 5 < 0 then
          .error "Cleanup threshold must be non-negative"
        else .ok (.cleanup ⟨id, correlationId, olderThanMinutes.getD 5⟩)

/-! ## Agent orchestrator (`packages/agent/src/core/agent.ts`) -/

/-- The `eventData` object the agent builds for each audit event type
(`session.created`, `session.revoked`, `sessions.cleaned`).  The
provider tag/version sub-object is constant (`postgres`, `1.0.0`). -/
inductive EventData
  | created (jobId role : String) (ttlMinutes : Int)
      (requesterUserId : String) (reason : Option String)
      (host : String) (port : Int) (database : String)
  | revokedD (jobId : String)
  | cleanedD (jobId : String) (olderThanMinutes : Int)
      (cleanedCount : Nat) (cleanedUsers : List String)
deriving Repr, DecidableEq

/-- One `logger.info` audit line emitted by `GatekeeperAgent.auditEvent`.
The source computes `eventHash = sha256(JSON.stringify({type, data}))`
and only logs; it does not insert into `gatekeeper_audit` (its own
comment: audit events are "not yet persisted to database").  The hash
primitive is the parameter `h`. -/
structure AuditLine where
  eventType : String
  sessionId : Option String
  username : Option String
  correlationId : Option String
  eventData : EventData
  eventHash : String
deriving Repr, DecidableEq

/-- `GatekeeperAgent.auditEvent`: builds the hash over
`{type: eventType, data: eventData}` and yields the log line.  No
database state is read or written. -/
def auditEvent (h : String × EventData → String) (eventType : String)
    (sessionId username correlationId : Option String)
    (eventData : EventData) : AuditLine :=
  ⟨eventType, sessionId, username, correlationId, eventData,
    h (eventType, eventData)⟩

/-- The provider handle the agent dispatches to, as a record of the
three operations `processJob` routes jobs into. -/
structure ProviderFns where
  createU : PgCreateReq → Except ProviderError PvCreateOk
  dropU : String → Except ProviderError Bool
  cleanupU : Int → Except ProviderError (List CleanupRow)

/-- Observable side effects of one `processJob` run: the provider
invocations made and the audit lines logged. -/
structure Effects where
  createCalls : List PgCreateReq := []
  dropCalls : List String := []
  cleanupCalls : List Int := []
  auditLines : List AuditLine := []
deriving Repr, DecidableEq

/-- The two exception kinds that can escape the job handlers into
`processJob`'s catch: `ValidationError` and `DatabaseError`
(`errors.ts`). -/
inductive AgentErr
  | validationE (msg : String)
  | databaseE (msg : String) (retryable : Bool)
deriving Repr, DecidableEq

/-- The success shape of `createSession`:
`{sessionId, status: 'ready', dsn, expiresAt, username}`. -/
structure CreateOkR where
  sessionId : String
  dsn : String
  expiresAt : Int
  username : String
deriving Repr, DecidableEq

/-- A `processJob` result: a ready create-result, the generic
`{status:'failed', error}` produced by `processJob`'s catch, a
revoke-result status, or a cleanup result. -/
inductive ProcOut
  | createOk (r : CreateOkR)
  | failed (error : JobError)
  | revokeStatus (status : String) (error : Option JobError)
  | cleanupDone (status : String) (cleanedCount : Nat) (error : Option JobError)
deriving Repr, DecidableEq

/-- The random material one create-session run consumes: six bytes for
the session id, six for the username, sixteen plus four for the
password. -/
structure Rnd where
  idBytes : List Nat
  userBytes : List Nat
  pw16 : List Nat
  pw4 : List Nat
deriving Repr, DecidableEq

/-- Agent configuration: `sessionMaxTtlMinutes`. -/
structure AgentCfg where
  sessionMaxTtlMinutes : Int
deriving Repr, DecidableEq

/-- `GatekeeperAgent.createSession`: reject a TTL above the configured
maximum with a `ValidationError` (thrown before the try block);
generate `ses_`/`gk_` identifiers and the password; call the provider
with connection limit 2; on success log the `session.created` audit
event and return the ready result; on a provider error throw
`DatabaseError('Failed to create ephemeral session', true)` —
`ValidationError` is the only exception rethrown as-is. -/
def createSessionA (cfg : AgentCfg) (pf : ProviderFns) (rnd : Rnd)
    (h : String × EventData → String) (j : CreateJobD) :
    Except AgentErr CreateOkR × Effects :=
  if j.ttlMinutes > cfg.sessionMaxTtlMinutes then
    (.error (.validationE ("TTL " ++ toString j.ttlMinutes ++
      " exceeds maximum allowed " ++ toString cfg.sessionMaxTtlMinutes ++
      " minutes")), {})
  else
    let sessionId := "ses_" ++ generateId rnd.idBytes
    let username := "gk_" ++ generateId rnd.userBytes
    let password := generatePassword rnd.pw16 rnd.pw4
    let req : PgCreateReq := ⟨username, password, j.role, j.ttlMinutes, 2⟩
    match pf.createU req with
    | .error _ =>
        (.error (.databaseE "Failed to create ephemeral session" true),
          { createCalls := [req] })
    | .ok pr =>
        let line := auditEvent h "session.created" (some sessionId)
          (some username) (some j.correlationId)
          (.created j.id j.role j.ttlMinutes j.requesterUserId j.reason
            j.host j.port j.database)
        (.ok ⟨sessionId, pr.dsn, pr.expiresAt, username⟩,
          { createCalls := [req], auditLines := [line] })

/-- `GatekeeperAgent.findUsernameForSession`: the session-to-username
lookup is not implemented for the provider pattern; both the body and
its catch return `null`. -/
def findUsernameForSession (_sessionId : String) : Option String :=
  none

/-- `GatekeeperAgent.revokeSession`: look the username up; absent →
`{status:'not_found'}`; present → `dropUser`, with `true` yielding
`revoked` plus a `session.revoked` audit event, `false` yielding
`not_found`, and a provider error yielding the retryable
`REVOCATION_ERROR` failure. -/
def revokeSessionA (pf : ProviderFns) (h : String × EventData → String)
    (j : RevokeJobD) : ProcOut × Effects :=
  match findUsernameForSession j.sessionId with
  | none => (.revokeStatus "not_found" none, {})
  | some username =>
      match pf.dropU username with
      | .ok true =>
          let line := auditEvent h "session.revoked" (some j.sessionId)
            (some username) (some j.correlationId) (.revokedD j.id)
          (.revokeStatus "revoked" none,
            { dropCalls := [username], auditLines := [line] })
      | .ok false =>
          (.revokeStatus "not_found" none, { dropCalls := [username] })
      | .error _ =>
          (.revokeStatus "failed"
            (some ⟨"REVOCATION_ERROR", "Failed to revoke session", true⟩),
            { dropCalls := [username] })

/-- `GatekeeperAgent.cleanup`: run the provider cleanup, count the rows
with `dropped = true`, log a `sessions.cleaned` audit event when the
count is positive, and return `{status:'completed', cleanedCount}`;
a provider error yields `{status:'failed', cleanedCount: 0}` with the
retryable `CLEANUP_ERROR`. -/
def cleanupA (pf : ProviderFns) (h : String × EventData → String)
    (j : CleanupJobD) : ProcOut × Effects :=
  match pf.cleanupU j.olderThanMinutes with
  | .ok rows =>
      let successfulCleanups := rows.filter (fun r => r.dropped)
      let eff : Effects :=
        if successfulCleanups.length > 0 then
          { cleanupCalls := [j.olderThanMinutes]
            auditLines := [auditEvent h "sessions.cleaned" none none
              (some j.correlationId)
              (.cleanedD j.id j.olderThanMinutes successfulCleanups.length
                (successfulCleanups.map (fun r => r.username)))] }
        else
          { cleanupCalls := [j.olderThanMinutes] }
      (.cleanupDone "completed" successfulCleanups.length none, eff)
  | .error _ =>
      (.cleanupDone "failed" 0
        (some ⟨"CLEANUP_ERROR", "Failed to cleanup expired sessions", true⟩),
        { cleanupCalls := [j.olderThanMinutes] })

/-- The catch block of `GatekeeperAgent.processJob` applied to a
create-session outcome: a thrown `ValidationError` becomes the
non-retryable `VALIDATION_ERROR` failure, any other exception the
retryable generic `INTERNAL_ERROR` failure. -/
def mapCreateOutcome : Except AgentErr CreateOkR × Effects → ProcOut × Effects
  | (.ok r, eff) => (.createOk r, eff)
  | (.error (.validationE m), eff) =>
      (.failed ⟨"VALIDATION_ERROR", m, false⟩, eff)
  | (.error (.databaseE _ _), eff) =>
      (.failed ⟨"INTERNAL_ERROR", "Internal server error", true⟩, eff)

/-- `GatekeeperAgent.processJob`: validate the job, route it, and map
escaping exceptions through the catch block. -/
def processJob (cfg : AgentCfg) (pf : ProviderFns) (rnd : Rnd)
    (h : String × EventData → String) (raw : RawJob) : ProcOut × Effects :=
  match decodeAgentJob raw with
  | .error m => (.failed ⟨"VALIDATION_ERROR", m, false⟩, {})
  | .ok (.create j) => mapCreateOutcome (createSessionA cfg pf rnd h j)
  | .ok (.revoke j) => revokeSessionA pf h j
  | .ok (.cleanup j) => cleanupA pf h j

/-- The provider functions induced by the database-state model at a
fixed state: this is the composition the deployed system runs, in
which the agent's provider handle is the PostgreSQL provider acting on
the target database.  The final state is obtained separately through
`pvCreateEphemeralUser` on the same state. -/
def providerAt (enc : String → String) (cfg : ConnCfg) (st : PgState) :
    ProviderFns where
  createU := fun req => (pvCreateEphemeralUser true enc cfg st req).1
  dropU := fun u => (pvDropUser true st u).1
  cleanupU := fun g => (pvCleanupExpiredUsers true st g).1

/-! ## Claim-side predicates (for refinement comparisons) -/

/-- C4's candidate predicate, read literally from the claim: a
principal "whose expiry is older than now minus G minutes" (a principal
without an expiry has no expiry older than the cutoff). -/
def specCleanupCandidate (now olderThanMinutes : Int) (r : PgRole) : Bool :=
  match r.rolvaliduntil with
  | some t => decide (t < now - olderThanMinutes * 60000)
  | none => false

/-- The amended candidate predicate for C4, matching the source: the
name matches the ephemeral pattern and the expiry is at most the
cutoff, or the principal has no expiry at all. -/
def amendedCleanupCandidate (now olderThanMinutes : Int) (r : PgRole) : Bool :=
  matchesGkPattern false r.rolname &&
    (match r.rolvaliduntil with
     | some t => decide (t ≤ now - olderThanMinutes * 60000)
     | none => true)

/-! ## Concrete instances used by witnesses and counterexamples -/

/-- A state holding one ephemeral-pattern role without any expiry. -/
def pgStateNullFix : PgState := ⟨[⟨"gk_abc", none, 2⟩], [], 99, 1000000, []⟩

/-- A concrete stand-in for the SHA-256 content-hash parameter. -/
def hashFix : String × EventData → String := fun _ => "h"

/-- A concrete stand-in for the `encodeURIComponent` parameter. -/
def encFix : String → String := fun s => s

/-- Concrete random material: session-id bytes, username bytes and
password bytes. -/
def rndFix : Rnd :=
  ⟨[0, 1, 2, 3, 4, 5], [10, 11, 12, 13, 14, 15], List.replicate 16 7, [1, 2, 3, 4]⟩

/-- A well-formed correlation id. -/
def uuidFix : String := "c07a0c9b-7f6d-4b8f-8b0c-1d8b9eb9f4f8"

/-- A well-formed raw `create_session` job (spec §8 scenario 1). -/
def rawCreateFix : RawJob :=
  .createJ "j1" uuidFix "db" 5432 "app" none "app_read" 15 "u1" none

/-- Connection configuration of the sample target. -/
def connCfgFix : ConnCfg := ⟨"db", 5432, "app", "prefer"⟩

/-- A fresh target-database state: only the `app_read` role pack. -/
def pgStateFix : PgState := ⟨[⟨"app_read", none, -1⟩], [], 99, 1000000, []⟩

/-- A target-database state in which the name the agent will generate
from `rndFix` (`gk_0a0b0c0d0e0f`) already exists: `CREATE ROLE` raises
the uniqueness error there. -/
def pgStateDupFix : PgState :=
  ⟨[⟨"app_read", none, -1⟩, ⟨"gk_0a0b0c0d0e0f", some 2000000, 2⟩], [], 99, 1000000, []⟩

/-- A state for drop scenarios: `gk_abc` exists with one active and one
idle connection, plus a bystander connection. -/
def pgStateDropFix : PgState :=
  ⟨[⟨"gk_abc", some 500, 2⟩, ⟨"app_read", none, -1⟩],
    [⟨"gk_abc", 7, true⟩, ⟨"gk_abc", 8, false⟩, ⟨"other", 9, true⟩], 99, 1000000, []⟩

/-- The decoded sample create job. -/
def jobFix : CreateJobD :=
  ⟨"j1", uuidFix, "db", 5432, "app", "prefer", "app_read", 15, "u1", none⟩

/-- The create request the agent builds from `rndFix`. -/
def reqFix : PgCreateReq :=
  ⟨"gk_0a0b0c0d0e0f", "BwcHBwcHBwcHBwcHBwcHBw==01020304", "app_read", 15, 2⟩

/-- The audit line the agent logs for the concrete successful run. -/
def lineFix : AuditLine :=
  ⟨"session.created", some "ses_000102030405", some "gk_0a0b0c0d0e0f",
    some uuidFix, .created "j1" "app_read" 15 "u1" none "db" 5432 "app", "h"⟩

/-- The effects of the concrete successful run. -/
def effFix : Effects := { createCalls := [reqFix], auditLines := [lineFix] }

/-- The ready result of the concrete successful run. -/
def createOkFix : CreateOkR :=
  ⟨"ses_000102030405",
    "postgresql://gk_0a0b0c0d0e0f:BwcHBwcHBwcHBwcHBwcHBw==01020304@db:5432/app?sslmode=prefer",
    1900000, "gk_0a0b0c0d0e0f"⟩

/-- A provider handle whose create operation raises the `USER_EXISTS`
semantic conflict (as mapped by `mapCreateError`), for witnesses. -/
def pfUserExistsFix : ProviderFns :=
  ⟨fun req => .error (mapCreateError req.username req.role
      ("role \x22" ++ req.username ++ "\x22 already exists")),
    fun _ => .error ⟨"USER_DROP_FAILED", "Failed to drop user", true⟩,
    fun _ => .error ⟨"CLEANUP_FAILED", "Failed to cleanup expired users", true⟩⟩

/-- A provider handle that succeeds with fixed cleanup rows. -/
def pfCleanupFix : ProviderFns :=
  ⟨fun _ => .error ⟨"USER_CREATION_FAILED", "Failed to create ephemeral user", true⟩,
    fun _ => .ok false,
    fun _ => .ok [⟨"gk_a", true, true, none⟩, ⟨"gk_b", true, false, some "boom"⟩,
      ⟨"gk_c", true, true, none⟩]⟩

/-! ## Helper lemmas -/

/-- Decidable equality for `Except`, so that concrete runs can be
checked with `decide`. -/
instance exceptDecidableEq {ε α : Type} [DecidableEq ε] [DecidableEq α] :
    DecidableEq (Except ε α)
  | .error a, .error b =>
      if h : a = b then .isTrue (by rw [h])
      else .isFalse (by intro he; cases he; exact h rfl)
  | .error _, .ok _ => .isFalse (by intro he; cases he)
  | .ok _, .error _ => .isFalse (by intro he; cases he)
  | .ok a, .ok b =>
      if h : a = b then .isTrue (by rw [h])
      else .isFalse (by intro he; cases he; exact h rfl)

/-- `release` event test. -/
def isRelease : Ev → Bool
  | .release => true
  | _ => false

/-- `acquire` event test. -/
def isAcquire : Ev → Bool
  | .acquire => true
  | _ => false

theorem releaseCount_eq_filter (t : List Ev) :
    releaseCount t = (t.filter isRelease).length := by
  unfold releaseCount
  congr 1
  apply List.filter_congr
  intro e _
  cases e <;> simp [isRelease]

theorem acquireCount_eq_filter (t : List Ev) :
    acquireCount t = (t.filter isAcquire).length := by
  unfold acquireCount
  congr 1
  apply List.filter_congr
  intro e _
  cases e <;> simp [isAcquire]

/-- Inversion of decoding a raw `revoke_session` job. -/
theorem decode_revoke_inv (id cid sid : String) (j : AgentJob)
    (hdec : decodeAgentJob (.revokeJ id cid sid) = .ok j) :
    j = .revoke ⟨id, cid, sid⟩ := by
  simp only [decodeAgentJob] at hdec
  cases hb : decodeBase id cid with
  | error m => rw [hb] at hdec; cases hdec
  | ok u =>
      rw [hb] at hdec
      simp only at hdec
      split at hdec
      · cases hdec
      · cases hdec; rfl

/-- Inversion of decoding a raw `create_session` job. -/
theorem decode_create_inv (id cid host : String) (port : Int)
    (database : String) (sslMode : Option String) (role : String)
    (ttlMinutes : Int) (requesterUserId : String) (reason : Option String)
    (j : AgentJob)
    (hdec : decodeAgentJob (.createJ id cid host port database sslMode role
      ttlMinutes requesterUserId reason) = .ok j) :
    j = .create ⟨id, cid, host, port, database, sslMode.getD "prefer", role,
      ttlMinutes, requesterUserId, reason⟩ := by
  simp only [decodeAgentJob] at hdec
  cases hb : decodeBase id cid with
  | error m => rw [hb] at hdec; cases hdec
  | ok u =>
      rw [hb] at hdec
      simp only at hdec
      repeat' split at hdec
      all_goals (try cases hdec)
      rfl

/-- Hex encoding doubles the byte count. -/
theorem hexEncode_length (bs : List Nat) :
    (hexEncode bs).length = 2 * bs.length := by
  show ((bs.map hexByte).flatten).length = 2 * bs.length
  induction bs with
  | nil => rfl
  | cons b rest ih =>
      simp only [List.map_cons, List.flatten_cons, List.length_append,
        List.length_cons, hexByte, List.length_nil, ih]
      omega

/-- Every entry of the hex-digit table is a hex character and
alphanumeric. -/
theorem hexDigits_getD_ok : ∀ i : Fin 16,
    charIsHex (hexDigits.getD i.val '0') = true ∧
      charIsAlphanum (hexDigits.getD i.val '0') = true := by
  decide

/-- Characters produced by `hexEncode` are hex digits (hence
alphanumeric). -/
theorem hexEncode_chars (bs : List Nat) :
    ∀ c ∈ (hexEncode bs).data,
      charIsHex c = true ∧ charIsAlphanum c = true := by
  show ∀ c ∈ (bs.map hexByte).flatten, _
  induction bs with
  | nil => intro c hc; cases hc
  | cons b rest ih =>
      intro c hc
      simp only [List.map_cons, List.flatten_cons, List.mem_append] at hc
      rcases hc with hc | hc
      · have h1 := hexDigits_getD_ok ⟨b / 16 % 16, Nat.mod_lt _ (by norm_num)⟩
        have h2 := hexDigits_getD_ok ⟨b % 16, Nat.mod_lt _ (by norm_num)⟩
        simp only [hexByte, List.mem_cons, List.mem_singleton] at hc
        rcases hc with hc | hc | hc
        · rw [hc]; exact h1
        · rw [hc]; exact h2
        · cases hc
      · exact ih c hc

/-- Base64 length law: four output characters per three-byte group. -/
theorem base64Encode_length :
    ∀ l : List Nat, (base64Encode l).length = 4 * ((l.length + 2) / 3)
  | [] => by simp [base64Encode]
  | [_] => by simp [base64Encode]
  | [_, _] => by simp [base64Encode]
  | _ :: _ :: _ :: rest => by
      have ih := base64Encode_length rest
      simp only [base64Encode, List.length_cons, ih]
      omega

/-- `gk_` plus a nonempty hex encoding matches the strict ephemeral
pattern. -/
theorem gkName_matches (bs : List Nat) (hne : bs ≠ []) :
    matchesGkPattern false ("gk_" ++ hexEncode bs) = true := by
  unfold matchesGkPattern
  rw [String.data_append]
  show (match 'g' :: 'k' :: '_' :: (hexEncode bs).data with
    | 'g' :: 'k' :: '_' :: rest =>
        !rest.isEmpty && rest.all (fun c => charIsAlphanum c || (false && c == '_'))
    | _ => false) = true
  simp only
  have hlen : (hexEncode bs).data.length = 2 * bs.length := hexEncode_length bs
  have hpos : (hexEncode bs).data ≠ [] := by
    intro hnil
    rw [hnil] at hlen
    cases bs with
    | nil => exact hne rfl
    | cons x xs => simp at hlen
  rw [Bool.and_eq_true]
  constructor
  · cases hd : (hexEncode bs).data with
    | nil => exact absurd hd hpos
    | cons x xs => rfl
  · rw [List.all_eq_true]
    intro c hc
    have := (hexEncode_chars bs c hc).2
    simp [this]

/-- A string matching the `gk_` pattern is not empty. -/
theorem matchesGk_ne_empty (b : Bool) (u : String)
    (hp : matchesGkPattern b u = true) : (u == "") = false := by
  rw [beq_eq_false_iff_ne]
  intro he
  subst he
  simp [matchesGkPattern] at hp

/-- Decoding a raw `create_session` job with `ttlMinutes = 0` always
fails (the schema requires `ttlMinutes ≥ 1`). -/
theorem decode_create_ttl0_err (id cid host : String) (port : Int)
    (database : String) (sslMode : Option String) (role ruid : String)
    (reason : Option String) (j : AgentJob)
    (hdec : decodeAgentJob (.createJ id cid host port database sslMode role 0
      ruid reason) = .ok j) : False := by
  simp only [decodeAgentJob] at hdec
  cases hb : decodeBase id cid with
  | error m => rw [hb] at hdec; cases hdec
  | ok u =>
      rw [hb] at hdec
      simp only at hdec
      repeat' split at hdec
      all_goals first
        | omega
        | (cases hdec)

/-- A successful helper create had a strictly-future expiry and leaves
the audit table unchanged. -/
theorem gkCreate_ok_props (st : PgState) (u p : String) (v : Int)
    (ro : String) (cl : Int) (st1 : PgState)
    (hok : gkCreateEphemeralUser st u p v ro cl = .ok st1) :
    st.now < v ∧ st1.auditTable = st.auditTable := by
  unfold gkCreateEphemeralUser at hok
  repeat' split at hok
  all_goals cases hok
  exact ⟨by omega, rfl⟩

/-- A successful provider create returns the expiry computed as
`now + ttlMinutes * 60 * 1000`, which is strictly in the future. -/
theorem pvCreate_ok_expiry (enc : String → String) (cfg : ConnCfg)
    (st : PgState) (req : PgCreateReq) (pr : PvCreateOk)
    (hok : (pvCreateEphemeralUser true enc cfg st req).1 = .ok pr) :
    pr.expiresAt = st.now + req.ttlMinutes * 60 * 1000 ∧
      st.now < pr.expiresAt := by
  simp only [pvCreateEphemeralUser, Bool.not_true] at hok
  rw [if_neg (by simp)] at hok
  cases hg : gkCreateEphemeralUser st req.username req.password
      (st.now + req.ttlMinutes * 60 * 1000) req.role req.connectionLimit with
  | error msg => rw [hg] at hok; cases hok
  | ok st1 =>
      rw [hg] at hok
      injection hok with hpr
      have hfut := (gkCreate_ok_props st req.username req.password
        (st.now + req.ttlMinutes * 60 * 1000) req.role req.connectionLimit
        st1 hg).1
      rw [← hpr]
      exact ⟨rfl, hfut⟩

/-- The cleanup loop yields exactly one row per input name, in order,
and marks every row `was_expired = true`. -/
theorem gkCleanupLoop_spec :
    ∀ (names : List String) (st : PgState),
      ((gkCleanupLoop st names).1.map (fun row => row.username) = names) ∧
      (∀ row ∈ (gkCleanupLoop st names).1, row.wasExpired = true)
  | [], st => by simp [gkCleanupLoop]
  | n :: rest, st => by
      cases hdp : gkDropUser st n with
      | ok p =>
          obtain ⟨b, st1⟩ := p
          have ih := gkCleanupLoop_spec rest st1
          constructor
          · simp [gkCleanupLoop, hdp, ih.1]
          · intro row hrow
            simp only [gkCleanupLoop, hdp, List.mem_cons] at hrow
            rcases hrow with hrow | hrow
            · rw [hrow]
            · exact ih.2 row hrow
      | error msg =>
          have ih := gkCleanupLoop_spec rest st
          constructor
          · simp [gkCleanupLoop, hdp, ih.1]
          · intro row hrow
            simp only [gkCleanupLoop, hdp, List.mem_cons] at hrow
            rcases hrow with hrow | hrow
            · rw [hrow]
            · exact ih.2 row hrow

/-! ## Claims -/

/-- C2: for every syntactically valid `revoke_session` job, the
orchestrator's session-to-username lookup returns null, so `processJob`
always returns `{status: not_found}`, never invokes `provider.dropUser`,
and never emits a `session.revoked` audit event. -/
theorem claim2_revoke_always_not_found (cfg : AgentCfg) (pf : ProviderFns)
    (rnd : Rnd) (h : String × EventData → String) (id cid sid : String)
    (j : AgentJob) (hdec : decodeAgentJob (.revokeJ id cid sid) = .ok j) :
    findUsernameForSession sid = none ∧
    processJob cfg pf rnd h (.revokeJ id cid sid) =
      (.revokeStatus "not_found" none, {}) ∧
    (processJob cfg pf rnd h (.revokeJ id cid sid)).2.dropCalls = [] ∧
    (processJob cfg pf rnd h (.revokeJ id cid sid)).2.auditLines = [] := by
  have hj := decode_revoke_inv id cid sid j hdec
  subst hj
  refine ⟨rfl, ?_⟩
  unfold processJob
  rw [hdec]
  simp [revokeSessionA, findUsernameForSession]

/-- Witness for C2: a concrete valid revoke job. -/
theorem claim2_revoke_always_not_found_witness :
    decodeAgentJob (.revokeJ "j2" uuidFix "ses_unknown") =
      .ok (.revoke ⟨"j2", uuidFix, "ses_unknown"⟩) ∧
    processJob ⟨1440⟩ pfCleanupFix rndFix hashFix
      (.revokeJ "j2" uuidFix "ses_unknown") =
      (.revokeStatus "not_found" none, {}) :=
  ⟨by decide,
    (claim2_revoke_always_not_found ⟨1440⟩ pfCleanupFix rndFix hashFix
      "j2" uuidFix "ses_unknown" (.revoke ⟨"j2", uuidFix, "ses_unknown"⟩)
      (by decide)).2.1⟩

/-- C9: for every cleanup job the provider completes, the orchestrator
returns `{status: completed}` with `cleanedCount` equal to the number of
per-row provider results whose `dropped` field is true; on provider
failure it returns `{status: failed}` with `cleanedCount` 0 and a
retryable error. -/
theorem claim9_cleanup_count (pfA pfB : ProviderFns)
    (h : String × EventData → String) (j : CleanupJobD)
    (rows : List CleanupRow) (e : ProviderError)
    (hok : pfA.cleanupU j.olderThanMinutes = .ok rows)
    (herr : pfB.cleanupU j.olderThanMinutes = .error e) :
    (cleanupA pfA h j).1 =
      .cleanupDone "completed" (rows.filter (fun r => r.dropped)).length none ∧
    (cleanupA pfB h j).1 =
      .cleanupDone "failed" 0
        (some ⟨"CLEANUP_ERROR", "Failed to cleanup expired sessions", true⟩) := by
  constructor
  · unfold cleanupA
    rw [hok]
  · unfold cleanupA
    rw [herr]

/-- Witness for C9: a provider returning three rows, two dropped, and a
failing provider. -/
theorem claim9_cleanup_count_witness :
    pfCleanupFix.cleanupU 5 = .ok [⟨"gk_a", true, true, none⟩,
      ⟨"gk_b", true, false, some "boom"⟩, ⟨"gk_c", true, true, none⟩] ∧
    pfUserExistsFix.cleanupU 5 =
      .error ⟨"CLEANUP_FAILED", "Failed to cleanup expired users", true⟩ ∧
    (cleanupA pfCleanupFix hashFix ⟨"j3", "c", 5⟩).1 =
      .cleanupDone "completed" 2 none ∧
    (cleanupA pfUserExistsFix hashFix ⟨"j3", "c", 5⟩).1 =
      .cleanupDone "failed" 0
        (some ⟨"CLEANUP_ERROR", "Failed to cleanup expired sessions", true⟩) :=
  ⟨rfl, rfl,
    (claim9_cleanup_count pfCleanupFix pfUserExistsFix hashFix ⟨"j3", "c", 5⟩
      [⟨"gk_a", true, true, none⟩, ⟨"gk_b", true, false, some "boom"⟩,
        ⟨"gk_c", true, true, none⟩]
      ⟨"CLEANUP_FAILED", "Failed to cleanup expired users", true⟩
      rfl rfl).1,
    (claim9_cleanup_count pfCleanupFix pfUserExistsFix hashFix ⟨"j3", "c", 5⟩
      [⟨"gk_a", true, true, none⟩, ⟨"gk_b", true, false, some "boom"⟩,
        ⟨"gk_c", true, true, none⟩]
      ⟨"CLEANUP_FAILED", "Failed to cleanup expired users", true⟩
      rfl rfl).2⟩

/-- C10: every provider operation that acquires an admin-pool
connection (`createEphemeralUser`, `dropUser`, `listEphemeralUsers`,
`cleanupExpiredUsers`, `healthCheck`) releases it exactly once on every
execution path, error paths included: for every statement-outcome
oracle the operation's pool trace contains exactly one acquire and one
release. -/
theorem claim10_connection_release (q1 q2 q3 q4 q5 : Nat → Bool) :
    (releaseCount (pvCreateTrace q1) = 1 ∧ acquireCount (pvCreateTrace q1) = 1) ∧
    (releaseCount (pvDropTrace q2) = 1 ∧ acquireCount (pvDropTrace q2) = 1) ∧
    (releaseCount (pvListTrace q3) = 1 ∧ acquireCount (pvListTrace q3) = 1) ∧
    (releaseCount (pvCleanupTrace q4) = 1 ∧ acquireCount (pvCleanupTrace q4) = 1) ∧
    (releaseCount (pvHealthTrace q5) = 1 ∧ acquireCount (pvHealthTrace q5) = 1) := by
  refine ⟨⟨?_, ?_⟩, ⟨?_, ?_⟩, ⟨?_, ?_⟩, ⟨?_, ?_⟩, ⟨?_, ?_⟩⟩
  · rw [releaseCount_eq_filter]
    cases h0 : q1 0 <;> cases h1 : q1 1 <;> cases h2 : q1 2 <;>
      simp [pvCreateTrace, h0, h1, h2, isRelease, List.filter]
  · rw [acquireCount_eq_filter]
    cases h0 : q1 0 <;> cases h1 : q1 1 <;> cases h2 : q1 2 <;>
      simp [pvCreateTrace, h0, h1, h2, isAcquire, List.filter]
  · rw [releaseCount_eq_filter]
    simp [pvDropTrace, isRelease, List.filter]
  · rw [acquireCount_eq_filter]
    simp [pvDropTrace, isAcquire, List.filter]
  · rw [releaseCount_eq_filter]
    simp [pvListTrace, isRelease, List.filter]
  · rw [acquireCount_eq_filter]
    simp [pvListTrace, isAcquire, List.filter]
  · rw [releaseCount_eq_filter]
    simp [pvCleanupTrace, isRelease, List.filter]
  · rw [acquireCount_eq_filter]
    simp [pvCleanupTrace, isAcquire, List.filter]
  · rw [releaseCount_eq_filter]
    cases h0 : q5 0 <;> simp [pvHealthTrace, h0, isRelease, List.filter]
  · rw [acquireCount_eq_filter]
    cases h0 : q5 0 <;> simp [pvHealthTrace, h0, isAcquire, List.filter]

/-- C1 counterexample: running the whole pipeline against a database in
which the generated name already exists, the provider raises the
non-retryable `USER_EXISTS` semantic conflict (mapped from the
database's uniqueness error), yet the orchestrator's job result is the
retryable generic `INTERNAL_ERROR` failure — the claim says the failure
is non-retryable and its code is never `INTERNAL_ERROR`. -/
theorem claim1_counterexample :
    (providerAt encFix connCfgFix pgStateDupFix).createU
        ⟨"gk_0a0b0c0d0e0f", generatePassword rndFix.pw16 rndFix.pw4,
          "app_read", 15, 2⟩ =
      .error ⟨"USER_EXISTS", "User gk_0a0b0c0d0e0f already exists", false⟩ ∧
    (processJob ⟨1440⟩ (providerAt encFix connCfgFix pgStateDupFix) rndFix
        hashFix rawCreateFix).1 =
      .failed ⟨"INTERNAL_ERROR", "Internal server error", true⟩ := by
  constructor
  · decide
  · decide

/-- C1 (amended): for every `create_session` job on which the provider
raises any error (the `USER_EXISTS` and `ROLE_NOT_FOUND` semantic
conflicts included), the orchestrator's job result is `{status: failed}`
with the generic code `INTERNAL_ERROR`, message `Internal server error`
and `retryable = true`: `createSession`'s catch wraps every
non-validation error in a retryable `DatabaseError` and `processJob`
surfaces that as `INTERNAL_ERROR`. -/
theorem claim1_amended_conflict_becomes_internal (cfg : AgentCfg)
    (pf : ProviderFns) (rnd : Rnd) (h : String × EventData → String)
    (id cid host : String) (port : Int) (database : String)
    (sslMode : Option String) (role : String) (ttl : Int) (ruid : String)
    (reason : Option String) (j : CreateJobD) (e : ProviderError)
    (hdec : decodeAgentJob (.createJ id cid host port database sslMode role ttl
      ruid reason) = .ok (.create j))
    (httl : ¬ j.ttlMinutes > cfg.sessionMaxTtlMinutes)
    (hpf : pf.createU ⟨"gk_" ++ generateId rnd.userBytes,
      generatePassword rnd.pw16 rnd.pw4, j.role, j.ttlMinutes, 2⟩ = .error e) :
    (processJob cfg pf rnd h (.createJ id cid host port database sslMode role
        ttl ruid reason)).1 =
      .failed ⟨"INTERNAL_ERROR", "Internal server error", true⟩ := by
  have hcs : createSessionA cfg pf rnd h j =
      (.error (.databaseE "Failed to create ephemeral session" true),
        { createCalls := [⟨"gk_" ++ generateId rnd.userBytes,
            generatePassword rnd.pw16 rnd.pw4, j.role, j.ttlMinutes, 2⟩] }) := by
    unfold createSessionA
    rw [if_neg httl]
    simp only [hpf]
  unfold processJob
  rw [hdec]
  show (mapCreateOutcome (createSessionA cfg pf rnd h j)).1 = _
  rw [hcs]
  rfl

/-- Witness for C1 (amended): the provider raising the mapped
`USER_EXISTS` conflict on the concrete job. -/
theorem claim1_amended_conflict_becomes_internal_witness :
    pfUserExistsFix.createU ⟨"gk_" ++ generateId rndFix.userBytes,
        generatePassword rndFix.pw16 rndFix.pw4, "app_read", 15, 2⟩ =
      .error ⟨"USER_EXISTS", "User gk_0a0b0c0d0e0f already exists", false⟩ ∧
    (processJob ⟨1440⟩ pfUserExistsFix rndFix hashFix rawCreateFix).1 =
      .failed ⟨"INTERNAL_ERROR", "Internal server error", true⟩ :=
  ⟨by decide,
    claim1_amended_conflict_becomes_internal ⟨1440⟩ pfUserExistsFix rndFix
      hashFix "j1" uuidFix "db" 5432 "app" none "app_read" 15 "u1" none
      ⟨"j1", uuidFix, "db", 5432, "app", "prefer", "app_read", 15, "u1", none⟩
      ⟨"USER_EXISTS", "User gk_0a0b0c0d0e0f already exists", false⟩
      (by decide) (by decide) (by decide)⟩

/-- C7 counterexample: with the configured maximum set to 2000, a job
whose `ttlMinutes` equals that configured maximum is rejected at
decoding (the schema caps TTL at 1440) instead of being accepted as the
claim states. -/
theorem claim7_counterexample :
    processJob ⟨2000⟩ pfCleanupFix rndFix hashFix
        (.createJ "j1" uuidFix "db" 5432 "app" none "app_read" 2000 "u1" none) =
      (.failed ⟨"VALIDATION_ERROR",
        "TTL cannot exceed 24 hours (1440 minutes)", false⟩, {}) := by
  decide

/-- C7 (amended): a `create_session` job whose `ttlMinutes` exceeds the
configured maximum yields `{status: failed}` with `VALIDATION_ERROR`,
`retryable = false` and no provider invocation; `ttlMinutes` equal to
the configured maximum is accepted (the provider is invoked) whenever
the job passes schema decoding — which bounds it by the schema cap of
1440; and `ttlMinutes = 0` is rejected at decoding with a validation
error. -/
theorem claim7_amended_ttl_validation (cfg : AgentCfg) (pf : ProviderFns)
    (rnd : Rnd) (h : String × EventData → String)
    (idA cidA hostA : String) (portA : Int) (dbA : String)
    (sslA : Option String) (roleA : String) (ttlA : Int) (ruidA : String)
    (reasonA : Option String) (rawB : RawJob) (jB : CreateJobD)
    (idC cidC hostC : String) (portC : Int) (dbC : String)
    (sslC : Option String) (roleC ruidC : String) (reasonC : Option String)
    (hgt : ttlA > cfg.sessionMaxTtlMinutes)
    (hdecB : decodeAgentJob rawB = .ok (.create jB))
    (heqB : jB.ttlMinutes = cfg.sessionMaxTtlMinutes) :
    (∃ m, processJob cfg pf rnd h
        (.createJ idA cidA hostA portA dbA sslA roleA ttlA ruidA reasonA) =
      (.failed ⟨"VALIDATION_ERROR", m, false⟩, ({} : Effects))) ∧
    (processJob cfg pf rnd h rawB).2.createCalls.length = 1 ∧
    (∃ m, processJob cfg pf rnd h
        (.createJ idC cidC hostC portC dbC sslC roleC 0 ruidC reasonC) =
      (.failed ⟨"VALIDATION_ERROR", m, false⟩, ({} : Effects))) := by
  refine ⟨?_, ?_, ?_⟩
  · cases hd : decodeAgentJob (.createJ idA cidA hostA portA dbA sslA roleA
        ttlA ruidA reasonA) with
    | error m =>
        refine ⟨m, ?_⟩
        unfold processJob
        rw [hd]
    | ok j =>
        have hj := decode_create_inv idA cidA hostA portA dbA sslA roleA ttlA
          ruidA reasonA j hd
        subst hj
        refine ⟨"TTL " ++ toString ttlA ++ " exceeds maximum allowed " ++
          toString cfg.sessionMaxTtlMinutes ++ " minutes", ?_⟩
        have hcs : createSessionA cfg pf rnd h
            ⟨idA, cidA, hostA, portA, dbA, sslA.getD "prefer", roleA, ttlA,
              ruidA, reasonA⟩ =
            (.error (.validationE ("TTL " ++ toString ttlA ++
              " exceeds maximum allowed " ++
              toString cfg.sessionMaxTtlMinutes ++ " minutes")), {}) := by
          unfold createSessionA
          rw [if_pos hgt]
        unfold processJob
        rw [hd]
        show mapCreateOutcome (createSessionA cfg pf rnd h
          ⟨idA, cidA, hostA, portA, dbA, sslA.getD "prefer", roleA, ttlA,
            ruidA, reasonA⟩) = _
        rw [hcs]
        rfl
  · have hnot : ¬ jB.ttlMinutes > cfg.sessionMaxTtlMinutes := by omega
    unfold processJob
    rw [hdecB]
    show (mapCreateOutcome (createSessionA cfg pf rnd h jB)).2.createCalls.length = 1
    unfold createSessionA
    rw [if_neg hnot]
    cases hc : pf.createU ⟨"gk_" ++ generateId rnd.userBytes,
        generatePassword rnd.pw16 rnd.pw4, jB.role, jB.ttlMinutes, 2⟩ with
    | error e => simp [hc, mapCreateOutcome]
    | ok pr => simp [hc, mapCreateOutcome]
  · cases hd : decodeAgentJob (.createJ idC cidC hostC portC dbC sslC roleC 0
        ruidC reasonC) with
    | error m =>
        refine ⟨m, ?_⟩
        unfold processJob
        rw [hd]
    | ok j =>
        exact absurd hd (fun hh => decode_create_ttl0_err idC cidC hostC portC
          dbC sslC roleC ruidC reasonC j hh)

/-- Witness for C7 (amended): configured maximum 60; a TTL of 100 is
rejected by the orchestrator check, a TTL of 60 reaches the provider,
and a TTL of 0 is rejected at decoding. -/
theorem claim7_amended_ttl_validation_witness :
    ((100 : Int) > (60 : Int)) ∧
    decodeAgentJob (.createJ "j1" uuidFix "db" 5432 "app" none "app_read" 60
        "u1" none) =
      .ok (.create ⟨"j1", uuidFix, "db", 5432, "app", "prefer", "app_read",
        60, "u1", none⟩) ∧
    ((∃ m, processJob ⟨60⟩ pfCleanupFix rndFix hashFix
        (.createJ "j1" uuidFix "db" 5432 "app" none "app_read" 100 "u1" none) =
      (.failed ⟨"VALIDATION_ERROR", m, false⟩, ({} : Effects))) ∧
    (processJob ⟨60⟩ pfCleanupFix rndFix hashFix
        (.createJ "j1" uuidFix "db" 5432 "app" none "app_read" 60 "u1"
          none)).2.createCalls.length = 1 ∧
    (∃ m, processJob ⟨60⟩ pfCleanupFix rndFix hashFix
        (.createJ "j1" uuidFix "db" 5432 "app" none "app_read" 0 "u1" none) =
      (.failed ⟨"VALIDATION_ERROR", m, false⟩, ({} : Effects)))) :=
  ⟨by decide, by decide,
    claim7_amended_ttl_validation ⟨60⟩ pfCleanupFix rndFix hashFix
      "j1" uuidFix "db" 5432 "app" none "app_read" 100 "u1" none
      (.createJ "j1" uuidFix "db" 5432 "app" none "app_read" 60 "u1" none)
      ⟨"j1", uuidFix, "db", 5432, "app", "prefer", "app_read", 60, "u1", none⟩
      "j1" uuidFix "db" 5432 "app" none "app_read" "u1" none
      (by decide) (by decide) (by decide)⟩

/-- C4 counterexample: a state with one `gk_`-named principal whose
expiry is NULL.  No principal has an expiry older than the cutoff, yet
cleanup returns one row — and marks it `was_expired = true` — so the
result set is not "one row per candidate principal whose expiry is
older than now minus G minutes". -/
theorem claim4_counterexample :
    pgStateNullFix.roles.filter (specCleanupCandidate pgStateNullFix.now 5) =
      [] ∧
    (gkCleanupExpiredUsers pgStateNullFix 5).1 =
      [⟨"gk_abc", true, true, none⟩] := by
  constructor
  · decide
  · decide

/-- C4 (amended): cleanup returns one row per principal whose name
matches the ephemeral pattern and whose expiry is at most `now − G`
minutes or absent, in catalog order; every returned row carries
`was_expired = true` (principals considered but not expired under the
grace period yield no row, so the "considered but not expired" outcome
never appears); `dropped` and `error_message` record the drop outcome. -/
theorem claim4_amended_cleanup_rows (st : PgState) (G : Int) :
    ((gkCleanupExpiredUsers st G).1.map (fun row => row.username) =
      (st.roles.filter (amendedCleanupCandidate st.now G)).map
        (fun r => r.rolname)) ∧
    (∀ row ∈ (gkCleanupExpiredUsers st G).1, row.wasExpired = true) := by
  constructor
  · exact (gkCleanupLoop_spec
      ((st.roles.filter (amendedCleanupCandidate st.now G)).map
        (fun r => r.rolname)) st).1
  · exact (gkCleanupLoop_spec
      ((st.roles.filter (amendedCleanupCandidate st.now G)).map
        (fun r => r.rolname)) st).2

/-- C5 counterexample: a `createEphemeralUser` call on an uninitialized
provider fails, but raises `NOT_INITIALIZED` — none of `USER_EXISTS`,
`ROLE_NOT_FOUND`, `USER_CREATION_FAILED` — and performs no rollback
(no transaction was opened). -/
theorem claim5_counterexample :
    pvCreateEphemeralUser false encFix connCfgFix pgStateFix
        ⟨"gk_x", "pw", "app_read", 15, 2⟩ =
      (.error ⟨"NOT_INITIALIZED", "Provider not initialized", false⟩,
        pgStateFix) ∧
    ("NOT_INITIALIZED" ≠ "USER_EXISTS" ∧ "NOT_INITIALIZED" ≠ "ROLE_NOT_FOUND" ∧
      "NOT_INITIALIZED" ≠ "USER_CREATION_FAILED") := by
  constructor
  · decide
  · decide

/-- C5 (amended): for every `createEphemeralUser` call on an
initialized provider whose helper invocation fails, the transaction is
rolled back (the database state is unchanged) and the raised error is
`mapCreateError` of the message, which is always exactly one of:
`USER_EXISTS` (not retryable) when the message contains
"already exists", `ROLE_NOT_FOUND` (not retryable) when it matches the
role-does-not-exist pattern, and `USER_CREATION_FAILED` (retryable)
otherwise. -/
theorem claim5_amended_error_mapping (enc : String → String) (cfg : ConnCfg)
    (st : PgState) (req : PgCreateReq) (msg m1 m2 m3 u r : String)
    (hfail : gkCreateEphemeralUser st req.username req.password
      (st.now + req.ttlMinutes * 60 * 1000) req.role req.connectionLimit =
      .error msg)
    (h1 : containsSubstr m1 "already exists" = true)
    (h2a : containsSubstr m2 "already exists" = false)
    (h2b : (containsSubstr m2 "Role" && containsSubstr m2 "does not exist") =
      true)
    (h3a : containsSubstr m3 "already exists" = false)
    (h3b : (containsSubstr m3 "Role" && containsSubstr m3 "does not exist") =
      false) :
    pvCreateEphemeralUser true enc cfg st req =
      (.error (mapCreateError req.username req.role msg), st) ∧
    (∀ m, (mapCreateError u r m).code = "USER_EXISTS" ∨
      (mapCreateError u r m).code = "ROLE_NOT_FOUND" ∨
      (mapCreateError u r m).code = "USER_CREATION_FAILED") ∧
    mapCreateError u r m1 =
      ⟨"USER_EXISTS", "User " ++ u ++ " already exists", false⟩ ∧
    mapCreateError u r m2 =
      ⟨"ROLE_NOT_FOUND", "Role " ++ r ++ " does not exist", false⟩ ∧
    mapCreateError u r m3 =
      ⟨"USER_CREATION_FAILED", "Failed to create ephemeral user", true⟩ := by
  refine ⟨?_, ?_, ?_, ?_, ?_⟩
  · simp only [pvCreateEphemeralUser, Bool.not_true]
    rw [if_neg (by simp)]
    rw [hfail]
  · intro m
    unfold mapCreateError
    split
    · left; rfl
    · split
      · right; left; rfl
      · right; right; rfl
  · simp [mapCreateError, h1]
  · simp [mapCreateError, h2a, h2b]
  · simp [mapCreateError, h3a, h3b]

/-- Witness for C5 (amended): a duplicate-name failure (the database's
uniqueness message), plus one message for each mapping branch. -/
theorem claim5_amended_error_mapping_witness :
    gkCreateEphemeralUser pgStateDupFix "gk_0a0b0c0d0e0f" "pw"
        (pgStateDupFix.now + 15 * 60 * 1000) "app_read" 2 =
      .error ("role \x22gk_0a0b0c0d0e0f\x22 already exists") ∧
    pvCreateEphemeralUser true encFix connCfgFix pgStateDupFix
        ⟨"gk_0a0b0c0d0e0f", "pw", "app_read", 15, 2⟩ =
      (.error ⟨"USER_EXISTS", "User gk_0a0b0c0d0e0f already exists", false⟩,
        pgStateDupFix) ∧
    mapCreateError "gk_x" "app_read" "Role app_read does not exist" =
      ⟨"ROLE_NOT_FOUND", "Role app_read does not exist", false⟩ ∧
    mapCreateError "gk_x" "app_read" "connection terminated" =
      ⟨"USER_CREATION_FAILED", "Failed to create ephemeral user", true⟩ :=
  ⟨by decide,
    by
      have := (claim5_amended_error_mapping encFix connCfgFix pgStateDupFix
        ⟨"gk_0a0b0c0d0e0f", "pw", "app_read", 15, 2⟩
        ("role \x22gk_0a0b0c0d0e0f\x22 already exists")
        ("role \x22gk_0a0b0c0d0e0f\x22 already exists")
        "Role app_read does not exist" "connection terminated"
        "gk_x" "app_read"
        (by decide) (by decide) (by decide) (by decide) (by decide)
        (by decide)).1
      rw [this]
      decide,
    (claim5_amended_error_mapping encFix connCfgFix pgStateDupFix
        ⟨"gk_0a0b0c0d0e0f", "pw", "app_read", 15, 2⟩
        ("role \x22gk_0a0b0c0d0e0f\x22 already exists")
        ("role \x22gk_0a0b0c0d0e0f\x22 already exists")
        "Role app_read does not exist" "connection terminated"
        "gk_x" "app_read"
        (by decide) (by decide) (by decide) (by decide) (by decide)
        (by decide)).2.2.2.1,
    (claim5_amended_error_mapping encFix connCfgFix pgStateDupFix
        ⟨"gk_0a0b0c0d0e0f", "pw", "app_read", 15, 2⟩
        ("role \x22gk_0a0b0c0d0e0f\x22 already exists")
        ("role \x22gk_0a0b0c0d0e0f\x22 already exists")
        "Role app_read does not exist" "connection terminated"
        "gk_x" "app_read"
        (by decide) (by decide) (by decide) (by decide) (by decide)
        (by decide)).2.2.2.2⟩

/-- Witness for C4 (amended): the drop-scenario state under a zero
grace period — `gk_abc` (expired) yields the only row. -/
theorem claim4_amended_cleanup_rows_witness :
    (gkCleanupExpiredUsers pgStateDropFix 0).1 =
      [⟨"gk_abc", true, true, none⟩] ∧
    (((gkCleanupExpiredUsers pgStateDropFix 0).1.map
        (fun row => row.username) =
      (pgStateDropFix.roles.filter
        (amendedCleanupCandidate pgStateDropFix.now 0)).map
        (fun r => r.rolname)) ∧
    (∀ row ∈ (gkCleanupExpiredUsers pgStateDropFix 0).1,
      row.wasExpired = true)) :=
  ⟨by decide, claim4_amended_cleanup_rows pgStateDropFix 0⟩

/-- C8 counterexample: `dropUser("alice")` where no principal named
`alice` exists does not return false silently — the helper refuses the
non-`gk_` name with an exception and the provider surfaces
`USER_DROP_FAILED`. -/
theorem claim8_counterexample :
    pgStateFix.roles.any (fun r => r.rolname == "alice") = false ∧
    gkDropUser pgStateFix "alice" =
      .error "Can only drop gatekeeper users (must start with gk_)" ∧
    pvDropUser true pgStateFix "alice" =
      (.error ⟨"USER_DROP_FAILED", "Failed to drop user", true⟩, pgStateFix) := by
  refine ⟨by decide, by decide, by decide⟩

/-- C8 (amended): for every `dropUser(name)` call whose name matches
the helper's `gk_` safety pattern: when no principal with that name
exists the call returns false, raises no error and leaves the state
unchanged; when the principal exists the call returns true, the login
is removed, and no active connection of that login other than the
caller's backend remains. -/
theorem claim8_amended_drop (st : PgState) (u v : String)
    (hpu : matchesGkPattern true u = true)
    (hpv : matchesGkPattern true v = true)
    (habs : st.roles.any (fun r => r.rolname == u) = false)
    (hpres : st.roles.any (fun r => r.rolname == v) = true) :
    gkDropUser st u = .ok (false, st) ∧
    ∃ st1, gkDropUser st v = .ok (true, st1) ∧
      st1.roles.all (fun r => r.rolname != v) = true ∧
      st1.activity.all
        (fun c => !(c.usename == v && c.active && c.pid != st.ownPid)) =
        true := by
  have hneU := matchesGk_ne_empty true u hpu
  have hneV := matchesGk_ne_empty true v hpv
  constructor
  · unfold gkDropUser
    rw [if_neg (show ¬((u == "") = true) by simp [hneU]),
      if_neg (show ¬((!matchesGkPattern true u) = true) by simp [hpu]),
      if_pos (show (!(st.roles.any (fun r => r.rolname == u))) = true by
        simp [habs])]
  · refine ⟨{ st with
      roles := st.roles.filter (fun r => r.rolname != v)
      activity :=
        if (st.activity.filter
            (fun c => c.usename == v && c.active && c.pid != st.ownPid)).length
            > 0 then
          st.activity.filter (fun c => !(c.usename == v && c.pid != st.ownPid))
        else
          st.activity }, ?_, ?_, ?_⟩
    · unfold gkDropUser
      rw [if_neg (show ¬((v == "") = true) by simp [hneV]),
        if_neg (show ¬((!matchesGkPattern true v) = true) by simp [hpv]),
        if_neg (show ¬((!(st.roles.any (fun r => r.rolname == v))) = true) by
          simp [hpres])]
    · rw [List.all_eq_true]
      intro r hr
      exact (List.mem_filter.mp hr).2
    · by_cases hact : (st.activity.filter
          (fun c => c.usename == v && c.active && c.pid != st.ownPid)).length
          > 0
      · rw [if_pos hact, List.all_eq_true]
        intro c hc
        have h2 := (List.mem_filter.mp hc).2
        cases hcu : (c.usename == v) <;> cases hca : c.active <;>
          cases hcp : (c.pid != st.ownPid) <;> simp_all
      · rw [if_neg hact, List.all_eq_true]
        intro c hc
        have hnil : st.activity.filter
            (fun c => c.usename == v && c.active && c.pid != st.ownPid) = [] := by
          cases hfe : st.activity.filter
              (fun c => c.usename == v && c.active && c.pid != st.ownPid) with
          | nil => rfl
          | cons x xs => rw [hfe] at hact; simp at hact
        have hall := List.filter_eq_nil_iff.mp hnil c hc
        cases hcu : (c.usename == v) <;> cases hca : c.active <;>
          cases hcp : (c.pid != st.ownPid) <;> simp_all

/-- Witness for C8 (amended): `gk_ghost` is absent, `gk_abc` exists
with one active and one idle connection. -/
theorem claim8_amended_drop_witness :
    matchesGkPattern true "gk_ghost" = true ∧
    matchesGkPattern true "gk_abc" = true ∧
    pgStateDropFix.roles.any (fun r => r.rolname == "gk_ghost") = false ∧
    pgStateDropFix.roles.any (fun r => r.rolname == "gk_abc") = true ∧
    (gkDropUser pgStateDropFix "gk_ghost" = .ok (false, pgStateDropFix) ∧
      ∃ st1, gkDropUser pgStateDropFix "gk_abc" = .ok (true, st1) ∧
        st1.roles.all (fun r => r.rolname != "gk_abc") = true ∧
        st1.activity.all
          (fun c => !(c.usename == "gk_abc" && c.active &&
            c.pid != pgStateDropFix.ownPid)) = true) :=
  ⟨by decide, by decide, by decide, by decide,
    claim8_amended_drop pgStateDropFix "gk_ghost" "gk_abc"
      (by decide) (by decide) (by decide) (by decide)⟩

/-- C3 counterexample: a create-session job that completes successfully
end to end against a fresh database, after which the `gatekeeper_audit`
table is still empty — no `session.created` row was appended and no
`prev_hash` chain exists (the agent only logs the event). -/
theorem claim3_counterexample :
    pgStateFix.auditTable = [] ∧
    (processJob ⟨1440⟩ (providerAt encFix connCfgFix pgStateFix) rndFix hashFix
        rawCreateFix).1 =
      .createOk ⟨"ses_000102030405",
        "postgresql://gk_0a0b0c0d0e0f:BwcHBwcHBwcHBwcHBwcHBw==01020304@db:5432/app?sslmode=prefer",
        1900000, "gk_0a0b0c0d0e0f"⟩ ∧
    (pvCreateEphemeralUser true encFix connCfgFix pgStateFix
        ⟨"gk_0a0b0c0d0e0f", generatePassword rndFix.pw16 rndFix.pw4,
          "app_read", 15, 2⟩).2.auditTable = [] := by
  refine ⟨by decide, by decide, by decide⟩

/-- C3 (amended): for every successfully completed create-session job,
exactly one `session.created` audit line is emitted to the process log
after the provider call, with `eventHash` equal to the content hash
over `{type: event_type, data: event_data}`; the event is not appended
to the database audit table (the provider's create path never touches
`gatekeeper_audit`), and no `prev_hash` is computed. -/
theorem claim3_amended_audit (cfg : AgentCfg) (pf : ProviderFns) (rnd : Rnd)
    (h : String × EventData → String) (j : CreateJobD) (r : CreateOkR)
    (eff : Effects) (hrun : createSessionA cfg pf rnd h j = (.ok r, eff)) :
    (∃ line, eff.auditLines = [line] ∧ line.eventType = "session.created" ∧
      line.eventHash = h ("session.created", line.eventData)) ∧
    (∀ (init : Bool) (enc : String → String) (pcfg : ConnCfg) (st : PgState)
      (req : PgCreateReq),
      (pvCreateEphemeralUser init enc pcfg st req).2.auditTable =
        st.auditTable) := by
  constructor
  · unfold createSessionA at hrun
    split at hrun
    · simp at hrun
    · cases hc : pf.createU ⟨"gk_" ++ generateId rnd.userBytes,
          generatePassword rnd.pw16 rnd.pw4, j.role, j.ttlMinutes, 2⟩ with
      | error e => simp only [hc] at hrun; simp at hrun
      | ok pr =>
          simp only [hc, Prod.mk.injEq] at hrun
          obtain ⟨h1, h2⟩ := hrun
          refine ⟨auditEvent h "session.created"
            (some ("ses_" ++ generateId rnd.idBytes))
            (some ("gk_" ++ generateId rnd.userBytes)) (some j.correlationId)
            (.created j.id j.role j.ttlMinutes j.requesterUserId j.reason
              j.host j.port j.database), ?_, rfl, rfl⟩
          rw [← h2]
  · intro init enc pcfg st req
    cases init with
    | false => rfl
    | true =>
        simp only [pvCreateEphemeralUser, Bool.not_true]
        rw [if_neg (by simp)]
        cases hg : gkCreateEphemeralUser st req.username req.password
            (st.now + req.ttlMinutes * 60 * 1000) req.role
            req.connectionLimit with
        | error msg => rfl
        | ok st1 =>
            exact (gkCreate_ok_props st req.username req.password
              (st.now + req.ttlMinutes * 60 * 1000) req.role
              req.connectionLimit st1 hg).2

/-- Witness for C3 (amended): the concrete successful run against the
fresh database. -/
theorem claim3_amended_audit_witness :
    createSessionA ⟨1440⟩ (providerAt encFix connCfgFix pgStateFix) rndFix
        hashFix jobFix = (.ok createOkFix, effFix) ∧
    ((∃ line, effFix.auditLines = [line] ∧
        line.eventType = "session.created" ∧
        line.eventHash = hashFix ("session.created", line.eventData)) ∧
      (∀ (init : Bool) (enc : String → String) (pcfg : ConnCfg) (st : PgState)
        (req : PgCreateReq),
        (pvCreateEphemeralUser init enc pcfg st req).2.auditTable =
          st.auditTable)) :=
  ⟨by decide,
    claim3_amended_audit ⟨1440⟩ (providerAt encFix connCfgFix pgStateFix)
      rndFix hashFix jobFix createOkFix effFix (by decide)⟩

/-- Length of a string built from a character list. -/
theorem stringMk_length (l : List Char) : (String.mk l).length = l.length :=
  rfl

/-- C6: for every valid create-session job that succeeds against the
provider, the result's username is `gk_` followed by the 12-character
hex encoding of six random bytes (so it matches `^gk_[A-Za-z0-9]+$`
with length in [4, 63]), the session id is `ses_` followed by 12 hex
characters, the generated password encodes 20 ≥ 16 random bytes into a
string of length ≥ 24, and the expiry equals the processing time plus
`ttlMinutes * 60` seconds and is strictly greater than now. -/
theorem claim6_generated_material (cfg : AgentCfg) (rnd : Rnd)
    (h : String × EventData → String) (enc : String → String) (pcfg : ConnCfg)
    (st : PgState) (j : CreateJobD) (r : CreateOkR) (eff : Effects)
    (h6a : rnd.idBytes.length = 6) (h6b : rnd.userBytes.length = 6)
    (h16 : rnd.pw16.length = 16) (h4 : rnd.pw4.length = 4)
    (hrun : createSessionA cfg (providerAt enc pcfg st) rnd h j =
      (.ok r, eff)) :
    r.sessionId = "ses_" ++ hexEncode rnd.idBytes ∧
    (hexEncode rnd.idBytes).length = 12 ∧
    (∀ c ∈ (hexEncode rnd.idBytes).data, charIsHex c = true) ∧
    r.username = "gk_" ++ hexEncode rnd.userBytes ∧
    matchesGkPattern false r.username = true ∧
    (4 ≤ r.username.length ∧ r.username.length ≤ 63) ∧
    (hexEncode rnd.userBytes).length = 12 ∧
    (∀ c ∈ (hexEncode rnd.userBytes).data, charIsHex c = true) ∧
    (16 ≤ rnd.pw16.length + rnd.pw4.length ∧
      24 ≤ (generatePassword rnd.pw16 rnd.pw4).length) ∧
    (r.expiresAt = st.now + j.ttlMinutes * 60 * 1000 ∧
      st.now < r.expiresAt) := by
  have husrne : rnd.userBytes ≠ [] := by
    intro hnil
    rw [hnil] at h6b
    simp at h6b
  have hulen : ("gk_" ++ hexEncode rnd.userBytes).length = 15 := by
    rw [String.length_append, hexEncode_length, h6b]
    decide
  have hpwlen : 24 ≤ (generatePassword rnd.pw16 rnd.pw4).length := by
    show 24 ≤ (⟨base64Encode rnd.pw16⟩ ++ hexEncode rnd.pw4).length
    rw [String.length_append, stringMk_length, base64Encode_length,
      hexEncode_length, h16, h4]
    decide
  unfold createSessionA at hrun
  split at hrun
  · simp at hrun
  · cases hc : (providerAt enc pcfg st).createU ⟨"gk_" ++ generateId
        rnd.userBytes, generatePassword rnd.pw16 rnd.pw4, j.role,
        j.ttlMinutes, 2⟩ with
    | error e => simp only [hc] at hrun; simp at hrun
    | ok pr =>
        simp only [hc, Prod.mk.injEq] at hrun
        obtain ⟨h1, h2⟩ := hrun
        injection h1 with h1
        have hexp := pvCreate_ok_expiry enc pcfg st
          ⟨"gk_" ++ generateId rnd.userBytes, generatePassword rnd.pw16
            rnd.pw4, j.role, j.ttlMinutes, 2⟩ pr hc
        subst h1
        refine ⟨rfl, ?_, ?_, rfl, ?_, ?_, ?_, ?_, ?_, ?_⟩
        · rw [hexEncode_length, h6a]
        · exact fun c hcm => (hexEncode_chars rnd.idBytes c hcm).1
        · exact gkName_matches rnd.userBytes husrne
        · show 4 ≤ ("gk_" ++ hexEncode rnd.userBytes).length ∧
            ("gk_" ++ hexEncode rnd.userBytes).length ≤ 63
          rw [hulen]
          exact ⟨by norm_num, by norm_num⟩
        · rw [hexEncode_length, h6b]
        · exact fun c hcm => (hexEncode_chars rnd.userBytes c hcm).1
        · exact ⟨by omega, hpwlen⟩
        · exact hexp

/-- Witness for C6: the concrete successful run against the fresh
database. -/
theorem claim6_generated_material_witness :
    rndFix.idBytes.length = 6 ∧ rndFix.userBytes.length = 6 ∧
    rndFix.pw16.length = 16 ∧ rndFix.pw4.length = 4 ∧
    createSessionA ⟨1440⟩ (providerAt encFix connCfgFix pgStateFix) rndFix
      hashFix jobFix = (.ok createOkFix, effFix) ∧
    (createOkFix.sessionId = "ses_" ++ hexEncode rndFix.idBytes ∧
      (hexEncode rndFix.idBytes).length = 12 ∧
      (∀ c ∈ (hexEncode rndFix.idBytes).data, charIsHex c = true) ∧
      createOkFix.username = "gk_" ++ hexEncode rndFix.userBytes ∧
      matchesGkPattern false createOkFix.username = true ∧
      (4 ≤ createOkFix.username.length ∧ createOkFix.username.length ≤ 63) ∧
      (hexEncode rndFix.userBytes).length = 12 ∧
      (∀ c ∈ (hexEncode rndFix.userBytes).data, charIsHex c = true) ∧
      (16 ≤ rndFix.pw16.length + rndFix.pw4.length ∧
        24 ≤ (generatePassword rndFix.pw16 rndFix.pw4).length) ∧
      (createOkFix.expiresAt = pgStateFix.now + jobFix.ttlMinutes * 60 * 1000 ∧
        pgStateFix.now < createOkFix.expiresAt)) :=
  ⟨by decide, by decide, by decide, by decide, by decide,
    claim6_generated_material ⟨1440⟩ rndFix hashFix encFix connCfgFix
      pgStateFix jobFix createOkFix effFix
      (by decide) (by decide) (by decide) (by decide) (by decide)⟩

end Gatekeeper
